import Mathlib

/-!
Shallow embedding of `scripts/vcf_secrets.py` (the `SecretsManager` class and
the module-level `load_config_with_secrets` function) and proofs about the
layered secrets-resolution system it implements.

Modelling conventions:
* A Python `str`-or-`None` value is `Option String` (`none` = Python `None`).
* Python truthiness of such a value: `none` and `some ""` are falsy.
* The parsed secrets document (`yaml.safe_load` output) is restricted to the
  shapes the resolver distinguishes: a null document (`None`) or a key/value
  mapping whose values are strings or nulls.  A mapping is a `List` of pairs
  with lookup on the first match (Python dict keys are unique).
* The ambient process state an instance can observe — `os.environ`, whether
  `config/vcf-secrets.yaml` exists, what opening-and-parsing it yields, and
  what `getpass.getpass` returns for a given prompt — is a `World` record.
* Effects are made explicit in the result records: how many times the secrets
  file was opened and parsed (`reads`), whether the `WARNING:` line was
  printed (`warned`), and whether the interactive prompt ran (`prompted`).
* A Python `assert` failure is `Except.error ()`.
-/

namespace VcfSecrets

/-- A value stored under a key of the parsed secrets mapping:
`none` models a YAML null, `some s` a string value `s`. -/
abbrev SecretVal := Option String

/-- The parsed secrets mapping (a Python dict from key to value). -/
abbrev SecretsMap := List (String × SecretVal)

/-- Outcome of opening and parsing the secrets file with `yaml.safe_load`:
either an `OSError`/`yaml.YAMLError` is raised, or a document is returned
(`none` for a null document, `some m` for a mapping `m`). -/
inductive ParseOutcome where
  | error : ParseOutcome
  | ok : Option SecretsMap → ParseOutcome
deriving DecidableEq, Repr

/-- The process state visible to one `SecretsManager` instance. -/
structure World where
  env : String → Option String
  fileExists : Bool
  parse : ParseOutcome
  prompt : String → String

/-- The `_secrets_cache` slot: a Python value that is `None` (`none`,
the initial state) or the mapping stored by a successful parse.  A parse
that returns a null document stores Python `None`, i.e. leaves this `none`:
the code cannot tell "not yet attempted" from "attempted, got null". -/
abbrev Cache := Option SecretsMap

/-- Result of `_load_secrets_file`: the returned Python value, the cache
slot afterwards, how many times the file was opened and parsed, and whether
the `WARNING: Failed to load secrets file` line was printed. -/
structure LoadResult where
  result : Option SecretsMap
  cache : Cache
  reads : Nat
  warned : Bool
deriving DecidableEq, Repr

/-- `SecretsManager._load_secrets_file`: return the cache if it is not
`None`; return `None` if the file does not exist; otherwise open and parse,
storing the parse result in the cache on success and printing a warning
(returning `None`, cache untouched) on `OSError`/`yaml.YAMLError`. -/
def load_secrets_file (w : World) (c : Cache) : LoadResult :=
  match c with
  | some m => ⟨some m, some m, 0, false⟩
  | none =>
    if w.fileExists then
      match w.parse with
      | ParseOutcome.error => ⟨none, none, 1, true⟩
      | ParseOutcome.ok v => ⟨v, v, 1, false⟩
    else ⟨none, none, 0, false⟩

/-- Python truthiness of a `str`-or-`None` value. -/
def truthy : Option String → Bool
  | none => false
  | some s => s != ""

/-- The value step 1 of `get_secret` short-circuits with:
`some v` iff `env_var` is truthy and `os.environ.get(env_var)` is truthy. -/
def envOverride (w : World) (env_var : Option String) : Option String :=
  match env_var with
  | some ev =>
    if ev != "" then
      match w.env ev with
      | some v => if v != "" then some v else none
      | none => none
    else none
  | none => none

/-- The test `if secrets and key in secrets` together with the lookup
`secrets[key]`: `some v` iff the loaded document is a non-empty mapping
containing `key`, in which case `v` is the stored value. -/
def secretsLookup (res : Option SecretsMap) (key : String) : Option SecretVal :=
  match res with
  | some m => if m.isEmpty then none else m.lookup key
  | none => none

/-- The prompt text `f"Enter {key.replace('_', ' ')}: "`. -/
def promptText (key : String) : String :=
  "Enter " ++ (key.replace "_" " ") ++ ": "

/-- Result of one `get_secret` call: the returned Python value, the cache
slot afterwards, file reads performed, warning printed, prompt shown. -/
structure GetResult where
  ret : Option String
  cache : Cache
  reads : Nat
  warned : Bool
  prompted : Bool
deriving DecidableEq, Repr

/-- Steps 2–4 of `get_secret` (after the environment-variable step):
secrets file, then truthy `config_value`, then `getpass` prompt when
`required`, else `None`. -/
def getSecretNoEnv (w : World) (c : Cache) (key : String)
    (config_value : Option String) (required : Bool) : GetResult :=
  let L := load_secrets_file w c
  match secretsLookup L.result key with
  | some v => ⟨v, L.cache, L.reads, L.warned, false⟩
  | none =>
    if truthy config_value then
      ⟨config_value, L.cache, L.reads, L.warned, false⟩
    else if required then
      ⟨some (w.prompt (promptText key)), L.cache, L.reads, L.warned, true⟩
    else
      ⟨none, L.cache, L.reads, L.warned, false⟩

/-- `SecretsManager.get_secret`: priority order environment variable,
secrets file, config value, interactive prompt (if `required`). -/
def get_secret (w : World) (c : Cache) (key : String)
    (config_value : Option String) (env_var : Option String)
    (required : Bool) : GetResult :=
  match envOverride w env_var with
  | some v => ⟨some v, c, 0, false, false⟩
  | none => getSecretNoEnv w c key config_value required

/-- Result of a typed convenience wrapper: `Except.ok s` is a normal return
of the string `s`; `Except.error ()` is the `AssertionError` raised by
`assert password is not None`. -/
structure WrapResult where
  ret : Except Unit String
  cache : Cache
  reads : Nat
  warned : Bool
  prompted : Bool
deriving Repr

/-- The shared tail of every wrapper: `assert password is not None` followed
by `return password`. -/
def assertSome (r : GetResult) : WrapResult :=
  match r.ret with
  | some s => ⟨Except.ok s, r.cache, r.reads, r.warned, r.prompted⟩
  | none => ⟨Except.error (), r.cache, r.reads, r.warned, r.prompted⟩

/-- `SecretsManager.get_esxi_root_password`. -/
def get_esxi_root_password (w : World) (c : Cache)
    (config_value : Option String) : WrapResult :=
  assertSome (get_secret w c "esxi_root_password" config_value
    (some "VCF_ESXI_ROOT_PASSWORD") true)

/-- `SecretsManager.get_vcf_installer_root_password`. -/
def get_vcf_installer_root_password (w : World) (c : Cache)
    (config_value : Option String) : WrapResult :=
  assertSome (get_secret w c "vcf_installer_root_password" config_value
    (some "VCF_INSTALLER_ROOT_PASSWORD") true)

/-- `SecretsManager.get_vcf_installer_admin_password`. -/
def get_vcf_installer_admin_password (w : World) (c : Cache)
    (config_value : Option String) : WrapResult :=
  assertSome (get_secret w c "vcf_installer_admin_password" config_value
    (some "VCF_INSTALLER_ADMIN_PASSWORD") true)

/-- `SecretsManager.get_vcenter_password`. -/
def get_vcenter_password (w : World) (c : Cache)
    (config_value : Option String) : WrapResult :=
  assertSome (get_secret w c "vcenter_password" config_value
    (some "VCF_VCENTER_PASSWORD") true)

/-- `SecretsManager.has_secrets_file`. -/
def has_secrets_file (w : World) : Bool :=
  w.fileExists

/-- `self.secrets_file = project_dir / "config" / "vcf-secrets.yaml"`. -/
def secretsFilePath (project_dir : String) : String :=
  project_dir ++ "/config/vcf-secrets.yaml"

/-- The fixed list of environment variables `get_secrets_info` reports on. -/
def envVarsList : List String :=
  ["VCF_ESXI_ROOT_PASSWORD", "VCF_INSTALLER_ROOT_PASSWORD",
   "VCF_INSTALLER_ADMIN_PASSWORD", "VCF_VCENTER_PASSWORD"]

/-- Truthiness of `os.environ.get(var)`. -/
def envTruthy (w : World) (var : String) : Bool :=
  truthy (w.env var)

/-- One line of the environment-variable section of `get_secrets_info`. -/
def envLine (w : World) (var : String) : String :=
  if envTruthy w var then "  ✓ " ++ var ++ " is set"
  else "    " ++ var ++ " not set"

/-- `SecretsManager.get_secrets_info`: the joined report string. -/
def get_secrets_info (w : World) (project_dir : String) : String :=
  let sf := secretsFilePath project_dir
  let fileLines : List String :=
    if has_secrets_file w then
      ["✓ Secrets file found: " ++ sf]
    else
      ["⚠ Secrets file not found: " ++ sf, "  Create from: " ++ sf ++ ".example"]
  String.intercalate "\n"
    (["Secrets Priority Order:",
      "  1. Environment variables (VCF_*)",
      "  2. Secrets file (config/vcf-secrets.yaml)",
      "  3. Config file (config/vcf-config.yaml)",
      "  4. Interactive prompt",
      ""]
     ++ fileLines
     ++ ["", "Environment variables:"]
     ++ envVarsList.map (envLine w))

/-- The parsed main configuration document, restricted to the three sections
`load_config_with_secrets` recognises.  Each present section carries its
credential field value as read by `.get(...)` (`none` = absent or null). -/
structure ConfigDoc where
  common : Option (Option String)
  vcf_installer : Option (Option String × Option String)
  vcenter : Option (Option String)
deriving DecidableEq, Repr

/-- How a `load_config_with_secrets` call ends: `exit c` models
`sys.exit(c)`; `assertFailed` models an `AssertionError` escaping a wrapper;
`ok` carries the mutated configuration document. -/
inductive LoadConfigOutcome where
  | exit : Nat → LoadConfigOutcome
  | assertFailed : LoadConfigOutcome
  | ok : ConfigDoc → LoadConfigOutcome
deriving DecidableEq, Repr

/-- Result of `load_config_with_secrets`, with the observable effects the
claims talk about: whether an `ERROR:`-marked line was printed and whether a
`SecretsManager` was constructed. -/
structure LoadConfigResult where
  outcome : LoadConfigOutcome
  errorPrinted : Bool
  constructedManager : Bool
deriving DecidableEq, Repr

/-- `load_config_with_secrets`: exit 1 with an `ERROR:` message if the
config file is missing or fails to parse; otherwise construct a fresh
`SecretsManager` and, section by section, replace each credential field by
the matching wrapper's result, threading the instance cache through the
calls. -/
def load_config_with_secrets (cfgExists : Bool) (cfgParse : Option ConfigDoc)
    (w : World) : LoadConfigResult :=
  if cfgExists then
    match cfgParse with
    | none => ⟨LoadConfigOutcome.exit 1, true, false⟩
    | some cfg =>
      let resolved : Except Unit ConfigDoc := do
        let s1 ←
          match cfg.common with
          | none => Except.ok (none, (none : Cache))
          | some cv =>
            let r := get_esxi_root_password w none cv
            match r.ret with
            | Except.ok s => Except.ok (some (some s), r.cache)
            | Except.error e => Except.error e
        let s2 ←
          match cfg.vcf_installer with
          | none => Except.ok ((none : Option (Option String × Option String)), s1.2)
          | some rp_ap =>
            let r := get_vcf_installer_root_password w s1.2 rp_ap.1
            match r.ret with
            | Except.error e => Except.error e
            | Except.ok rs =>
              let r2 := get_vcf_installer_admin_password w r.cache rp_ap.2
              match r2.ret with
              | Except.error e => Except.error e
              | Except.ok as2 => Except.ok (some (some rs, some as2), r2.cache)
        let s3 ←
          match cfg.vcenter with
          | none => Except.ok ((none : Option (Option String)), s2.2)
          | some pv =>
            let r := get_vcenter_password w s2.2 pv
            match r.ret with
            | Except.error e => Except.error e
            | Except.ok s => Except.ok (some (some s), r.cache)
        Except.ok ⟨s1.1, s2.1, s3.1⟩
      match resolved with
      | Except.ok cfg2 => ⟨LoadConfigOutcome.ok cfg2, false, true⟩
      | Except.error _ => ⟨LoadConfigOutcome.assertFailed, false, true⟩
  else ⟨LoadConfigOutcome.exit 1, true, false⟩

/-- The arguments of one `get_secret` call. -/
structure Call where
  key : String
  config_value : Option String
  env_var : Option String
  required : Bool
deriving DecidableEq, Repr

/-- Run a sequence of `get_secret` calls against one instance, threading the
cache; returns the final cache and the total number of secrets-file reads. -/
def runCalls (w : World) : Cache → List Call → Cache × Nat
  | c, [] => (c, 0)
  | c, call :: rest =>
    let r := get_secret w c call.key call.config_value call.env_var call.required
    let p := runCalls w r.cache rest
    (p.1, r.reads + p.2)

/-! Concrete process states used to evaluate the definitions on specific
inputs. -/

/-- An empty process environment. -/
def envEmpty : String → Option String := fun _ => none

/-- Secrets file exists but `yaml.safe_load` raises on it. -/
def wParseError : World :=
  ⟨envEmpty, true, ParseOutcome.error, fun _ => ""⟩

/-- No secrets file on disk; the interactive prompt returns the empty
string (the user just presses Enter). -/
def wAbsent : World :=
  ⟨envEmpty, false, ParseOutcome.ok none, fun _ => ""⟩

/-- Secrets file parses to `{esxi_root_password: "filepass"}`; the prompt
would return `"typed"`. -/
def wGood : World :=
  ⟨envEmpty, true, ParseOutcome.ok (some [("esxi_root_password", some "filepass")]),
   fun _ => "typed"⟩

/-- Secrets file parses to `{esxi_root_password: null}`. -/
def wNullSecret : World :=
  ⟨envEmpty, true, ParseOutcome.ok (some [("esxi_root_password", none)]),
   fun _ => "typed"⟩

/-- `VCF_ESXI_ROOT_PASSWORD=hunter2` in the environment; the secrets file
exists but is malformed. -/
def wEnvSet : World :=
  ⟨fun v => if v = "VCF_ESXI_ROOT_PASSWORD" then some "hunter2" else none,
   true, ParseOutcome.error, fun _ => ""⟩

/-- Same presence pattern as `wEnvSet` (same variable set, file exists,
also malformed) but a different secret value. -/
def wEnvSetOther : World :=
  ⟨fun v => if v = "VCF_ESXI_ROOT_PASSWORD" then some "swordfish" else none,
   true, ParseOutcome.error, fun _ => ""⟩

/-! Helper lemmas shared by the claim theorems. -/

/-- When step 1 finds a truthy environment value, `get_secret` returns it
and touches nothing else. -/
lemma get_secret_env_hit (w : World) (c : Cache) (key : String)
    (cv ev : Option String) (req : Bool) (v : String)
    (h : envOverride w ev = some v) :
    get_secret w c key cv ev req = ⟨some v, c, 0, false, false⟩ := by
  simp [get_secret, h]

/-- When step 1 misses, `get_secret` continues with the remaining steps. -/
lemma get_secret_env_miss (w : World) (c : Cache) (key : String)
    (cv ev : Option String) (req : Bool)
    (h : envOverride w ev = none) :
    get_secret w c key cv ev req = getSecretNoEnv w c key cv req := by
  simp [get_secret, h]

/-- Steps 2–4 leave exactly the cache and read count that the
`_load_secrets_file` call produced. -/
lemma getSecretNoEnv_cache_reads (w : World) (c : Cache) (key : String)
    (cv : Option String) (req : Bool) :
    (getSecretNoEnv w c key cv req).cache = (load_secrets_file w c).cache ∧
    (getSecretNoEnv w c key cv req).reads = (load_secrets_file w c).reads := by
  simp only [getSecretNoEnv]
  split
  · exact ⟨rfl, rfl⟩
  · split
    · exact ⟨rfl, rfl⟩
    · split
      · exact ⟨rfl, rfl⟩
      · exact ⟨rfl, rfl⟩

/-- A populated cache slot is final: any further `get_secret` call performs
no file read and leaves the cache unchanged. -/
lemma get_secret_cache_some (w : World) (m : SecretsMap) (key : String)
    (cv ev : Option String) (req : Bool) :
    (get_secret w (some m) key cv ev req).cache = some m ∧
    (get_secret w (some m) key cv ev req).reads = 0 := by
  cases h : envOverride w ev
  · rw [get_secret_env_miss w (some m) key cv ev req h]
    have hcr := getSecretNoEnv_cache_reads w (some m) key cv req
    simpa [load_secrets_file] using hcr
  · rw [get_secret_env_hit w (some m) key cv ev req _ h]
    exact ⟨rfl, rfl⟩

/-- Once the cache holds a mapping, a whole sequence of calls performs zero
file reads and never changes the cache. -/
lemma runCalls_cached (w : World) (m : SecretsMap) (calls : List Call) :
    runCalls w (some m) calls = (some m, 0) := by
  induction calls with
  | nil => rfl
  | cons a rest ih =>
    have hc := get_secret_cache_some w m a.key a.config_value a.env_var a.required
    simp [runCalls, hc.1, hc.2, ih]

/-- With `required=True`, `get_secret` returns a string unless the secrets
file maps the key to a YAML null (in which case that null is returned). -/
lemma get_secret_required_some (w : World) (c : Cache) (key : String)
    (cv ev : Option String)
    (h : secretsLookup (load_secrets_file w c).result key ≠ some none) :
    ∃ s, (get_secret w c key cv ev true).ret = some s := by
  cases hE : envOverride w ev with
  | some v =>
    exact ⟨v, by rw [get_secret_env_hit w c key cv ev true v hE]⟩
  | none =>
    rw [get_secret_env_miss w c key cv ev true hE]
    unfold getSecretNoEnv
    cases hL : secretsLookup (load_secrets_file w c).result key with
    | some v =>
      cases v with
      | some s => exact ⟨s, by simp [hL]⟩
      | none => exact absurd hL h
    | none =>
      cases hcv : truthy cv with
      | true =>
        cases cv with
        | none => simp [truthy] at hcv
        | some s => exact ⟨s, by simp [hL, hcv]⟩
      | false =>
        exact ⟨w.prompt (promptText key), by simp [hL, hcv]⟩

/-- The wrapper pattern `assert password is not None; return password`
succeeds with a string under the same proviso. -/
lemma assertSome_required_some (w : World) (c : Cache) (key : String)
    (cv ev : Option String)
    (h : secretsLookup (load_secrets_file w c).result key ≠ some none) :
    ∃ s, (assertSome (get_secret w c key cv ev true)).ret = Except.ok s := by
  obtain ⟨s, hs⟩ := get_secret_required_some w c key cv ev h
  exact ⟨s, by simp [assertSome, hs]⟩

/-- The one-step unfolding of `runCalls`. -/
lemma runCalls_cons (w : World) (c : Cache) (a : Call) (rest : List Call) :
    runCalls w c (a :: rest) =
      ((runCalls w (get_secret w c a.key a.config_value a.env_var a.required).cache rest).1,
        (get_secret w c a.key a.config_value a.env_var a.required).reads +
          (runCalls w (get_secret w c a.key a.config_value a.env_var a.required).cache rest).2) :=
  rfl

/-! Claim theorems. -/

/-- Claim C1, counterexample: with a secrets file that exists but fails to
parse, two `get_secret` calls on the same instance open and parse the file
twice — the claimed at-most-one-read invariant fails — and no non-value
sentinel is recorded in the cache (it is still the initial `None`). -/
theorem secrets_file_reread_counterexample :
    (runCalls wParseError none
      [⟨"a", none, none, false⟩, ⟨"b", none, none, false⟩]).2 = 2 ∧
    ¬ (runCalls wParseError none
      [⟨"a", none, none, false⟩, ⟨"b", none, none, false⟩]).2 ≤ 1 ∧
    (runCalls wParseError none
      [⟨"a", none, none, false⟩, ⟨"b", none, none, false⟩]).1 = none := by
  decide

/-- Claim C1, amended: the secrets file is read at most once per instance
provided it is absent (then it is never read, only re-checked for
existence) or its first read parses successfully to a non-null document
(then the parse result is cached).  No sentinel is cached for an absent,
unparseable, or null-parsing file, so in the unparseable case every later
call that reaches the secrets-file step re-reads the file. -/
theorem secrets_file_read_at_most_once_on_success (w : World)
    (h : w.fileExists = false ∨ ∃ m, w.parse = ParseOutcome.ok (some m))
    (calls : List Call) :
    (runCalls w none calls).2 ≤ 1 := by
  induction calls with
  | nil => simp [runCalls]
  | cons a rest ih =>
    rw [runCalls_cons]
    cases hE : envOverride w a.env_var with
    | some v =>
      rw [get_secret_env_hit w none a.key a.config_value a.env_var a.required v hE]
      simpa using ih
    | none =>
      rw [get_secret_env_miss w none a.key a.config_value a.env_var a.required hE]
      have hcr := getSecretNoEnv_cache_reads w none a.key a.config_value a.required
      cases hf : w.fileExists with
      | false =>
        have hload : load_secrets_file w none = ⟨none, none, 0, false⟩ := by
          simp [load_secrets_file, hf]
        rw [hload] at hcr
        rw [hcr.1, hcr.2]
        simpa using ih
      | true =>
        rcases h with h | ⟨m, hm⟩
        · rw [hf] at h; exact absurd h (by simp)
        · have hload : load_secrets_file w none = ⟨some m, some m, 1, false⟩ := by
            simp [load_secrets_file, hf, hm]
          rw [hload] at hcr
          rw [hcr.1, hcr.2, runCalls_cached]
          simp

/-- Claim C1, amended, witness: against a successfully parsed secrets file,
two calls for different keys cost at most one file read. -/
theorem secrets_file_read_at_most_once_on_success_witness :
    (runCalls wGood none
      [⟨"esxi_root_password", none, none, true⟩,
       ⟨"vcenter_password", some "cfg", none, true⟩]).2 ≤ 1 :=
  secrets_file_read_at_most_once_on_success wGood
    (Or.inr ⟨[("esxi_root_password", some "filepass")], rfl⟩) _

/-- Claim C2, counterexample: with every source empty and the interactive
prompt yielding an empty line, `get_esxi_root_password` returns the empty
string; and when the secrets file maps the key to a YAML null, `get_secret`
returns `None` and the wrapper's `assert password is not None` fires
(modelled as `Except.error ()`). -/
theorem required_secret_empty_or_assert_counterexample :
    (get_esxi_root_password wAbsent none none).ret = Except.ok "" ∧
    (get_esxi_root_password wNullSecret none (some "configpass")).ret
      = Except.error () :=
  ⟨rfl, rfl⟩

/-- Claim C2, amended: a `required=True` call of `get_secret`, and each of
the four typed wrappers, returns a string — so the wrapper's non-`None`
assertion cannot fire — provided the secrets file does not map the looked-up
key to a YAML null; the returned string may still be empty (for instance
when the prompt yields an empty line). -/
theorem required_secret_never_none_unless_null_in_file (w : World) (c : Cache)
    (key : String) (cv ev : Option String) :
    (secretsLookup (load_secrets_file w c).result key ≠ some none →
      ∃ s, (get_secret w c key cv ev true).ret = some s) ∧
    (secretsLookup (load_secrets_file w c).result "esxi_root_password" ≠ some none →
      ∃ s, (get_esxi_root_password w c cv).ret = Except.ok s) ∧
    (secretsLookup (load_secrets_file w c).result "vcf_installer_root_password" ≠ some none →
      ∃ s, (get_vcf_installer_root_password w c cv).ret = Except.ok s) ∧
    (secretsLookup (load_secrets_file w c).result "vcf_installer_admin_password" ≠ some none →
      ∃ s, (get_vcf_installer_admin_password w c cv).ret = Except.ok s) ∧
    (secretsLookup (load_secrets_file w c).result "vcenter_password" ≠ some none →
      ∃ s, (get_vcenter_password w c cv).ret = Except.ok s) := by
  refine ⟨fun h => get_secret_required_some w c key cv ev h,
    fun h => assertSome_required_some w c "esxi_root_password" cv
      (some "VCF_ESXI_ROOT_PASSWORD") h,
    fun h => assertSome_required_some w c "vcf_installer_root_password" cv
      (some "VCF_INSTALLER_ROOT_PASSWORD") h,
    fun h => assertSome_required_some w c "vcf_installer_admin_password" cv
      (some "VCF_INSTALLER_ADMIN_PASSWORD") h,
    fun h => assertSome_required_some w c "vcenter_password" cv
      (some "VCF_VCENTER_PASSWORD") h⟩

/-- Claim C2, amended, witness: with a secrets file holding a string value
for the key, the ESXi wrapper returns a string. -/
theorem required_secret_never_none_unless_null_in_file_witness :
    ∃ s, (get_esxi_root_password wGood none none).ret = Except.ok s :=
  (required_secret_never_none_unless_null_in_file wGood none "k" none none).2.1
    (by decide)

/-- Claim C3: when `env_var` names an environment variable that is set to a
non-empty value, `get_secret` returns exactly that value, for every cache
state, secrets-file state, `config_value`, and `required` flag. -/
theorem env_var_overrides_all_sources (w : World) (c : Cache) (key : String)
    (cv : Option String) (ev v : String) (req : Bool)
    (hev : ev ≠ "") (hset : w.env ev = some v) (hv : v ≠ "") :
    (get_secret w c key cv (some ev) req).ret = some v := by
  have hE : envOverride w (some ev) = some v := by
    simp [envOverride, hset, hev, hv]
  rw [get_secret_env_hit w c key cv (some ev) req v hE]

/-- Claim C3, witness: `VCF_ESXI_ROOT_PASSWORD=hunter2` beats a malformed
secrets file and a non-empty config value. -/
theorem env_var_overrides_all_sources_witness :
    (get_secret wEnvSet none "esxi_root_password" (some "configpass")
      (some "VCF_ESXI_ROOT_PASSWORD") true).ret = some "hunter2" :=
  env_var_overrides_all_sources wEnvSet none "esxi_root_password"
    (some "configpass") "VCF_ESXI_ROOT_PASSWORD" "hunter2" true
    (by decide) (by decide) (by decide)

/-- Claim C4: when no non-empty environment override applies and the
secrets file parsed successfully to a mapping containing `key`, `get_secret`
returns the secrets-file value for `key`, whatever `config_value` is. -/
theorem secrets_file_beats_config (w : World) (c : Cache) (key : String)
    (cv ev : Option String) (req : Bool) (m : SecretsMap) (v : SecretVal)
    (hc : c = none ∨ c = some m)
    (hfe : w.fileExists = true) (hp : w.parse = ParseOutcome.ok (some m))
    (hk : m.lookup key = some v)
    (henv : envOverride w ev = none) :
    (get_secret w c key cv ev req).ret = v := by
  have hm : m.isEmpty = false := by
    cases m with
    | nil => simp at hk
    | cons a l => rfl
  have hload : (load_secrets_file w c).result = some m := by
    rcases hc with rfl | rfl
    · simp [load_secrets_file, hfe, hp]
    · rfl
  rw [get_secret_env_miss w c key cv ev req henv]
  simp [getSecretNoEnv, secretsLookup, hload, hm, hk]

/-- Claim C4, witness: the secrets-file entry `esxi_root_password:
"filepass"` beats `config_value = "configpass"`. -/
theorem secrets_file_beats_config_witness :
    (get_secret wGood none "esxi_root_password" (some "configpass") none
      true).ret = some "filepass" :=
  secrets_file_beats_config wGood none "esxi_root_password" (some "configpass")
    none true [("esxi_root_password", some "filepass")] (some "filepass")
    (Or.inl rfl) rfl rfl (by decide) rfl

/-- Claim C5: when the environment step and the secrets-file step both
miss and `config_value` is a non-empty string, `get_secret` returns
`config_value`. -/
theorem config_value_fallback_when_sources_miss (w : World) (c : Cache)
    (key : String) (s : String) (ev : Option String) (req : Bool)
    (henv : envOverride w ev = none)
    (hmiss : secretsLookup (load_secrets_file w c).result key = none)
    (hs : s ≠ "") :
    (get_secret w c key (some s) ev req).ret = some s := by
  rw [get_secret_env_miss w c key (some s) ev req henv]
  simp [getSecretNoEnv, hmiss, truthy, hs]

/-- Claim C5, witness: with no secrets file and the environment variable
unset, the config value is returned. -/
theorem config_value_fallback_when_sources_miss_witness :
    (get_secret wAbsent none "esxi_root_password" (some "configpass")
      (some "VCF_ESXI_ROOT_PASSWORD") true).ret = some "configpass" :=
  config_value_fallback_when_sources_miss wAbsent none "esxi_root_password"
    "configpass" (some "VCF_ESXI_ROOT_PASSWORD") true
    (by decide) (by decide) (by decide)

/-- Claim C6: when every source misses and `required=False`, `get_secret`
returns `None` — distinguishable from the empty string — without
prompting (and the embedding is a total function, so no exception). -/
theorem not_required_missing_returns_none (w : World) (c : Cache)
    (key : String) (cv ev : Option String)
    (henv : envOverride w ev = none)
    (hmiss : secretsLookup (load_secrets_file w c).result key = none)
    (hcv : truthy cv = false) :
    (get_secret w c key cv ev false).ret = none ∧
    (get_secret w c key cv ev false).ret ≠ some "" ∧
    (get_secret w c key cv ev false).prompted = false := by
  rw [get_secret_env_miss w c key cv ev false henv]
  simp [getSecretNoEnv, hmiss, hcv]

/-- Claim C6, witness: no file, no env var, no config value, not required:
the call returns `None` and does not prompt. -/
theorem not_required_missing_returns_none_witness :
    (get_secret wAbsent none "esxi_root_password" none
      (some "VCF_ESXI_ROOT_PASSWORD") false).ret = none ∧
    (get_secret wAbsent none "esxi_root_password" none
      (some "VCF_ESXI_ROOT_PASSWORD") false).ret ≠ some "" ∧
    (get_secret wAbsent none "esxi_root_password" none
      (some "VCF_ESXI_ROOT_PASSWORD") false).prompted = false :=
  not_required_missing_returns_none wAbsent none "esxi_root_password" none
    (some "VCF_ESXI_ROOT_PASSWORD") (by decide) (by decide) (by decide)

/-- Claim C7, counterexample: in a state where the secrets file exists but
fails to parse, a call satisfied by a non-empty environment variable never
opens the file and prints no warning, contradicting the claim that every
call in that state emits a warning. -/
theorem malformed_file_no_warning_counterexample :
    wEnvSet.fileExists = true ∧ wEnvSet.parse = ParseOutcome.error ∧
    (get_secret wEnvSet none "esxi_root_password" none
      (some "VCF_ESXI_ROOT_PASSWORD") true).warned = false ∧
    (get_secret wEnvSet none "esxi_root_password" none
      (some "VCF_ESXI_ROOT_PASSWORD") true).reads = 0 :=
  ⟨rfl, rfl, rfl, rfl⟩

/-- Claim C7, amended: with the secrets file present but unparseable,
every `get_secret` call returns exactly what the same call returns with the
file entirely absent (the embedding is total, so nothing is raised), and
the warning is printed by exactly those calls that reach the secrets-file
step, i.e. those not satisfied by a non-empty environment variable. -/
theorem malformed_file_behaves_as_absent (e : String → Option String)
    (p : String → String) (q : ParseOutcome) (key : String)
    (cv ev : Option String) (req : Bool) :
    (get_secret ⟨e, true, ParseOutcome.error, p⟩ none key cv ev req).ret =
      (get_secret ⟨e, false, q, p⟩ none key cv ev req).ret ∧
    (envOverride ⟨e, true, ParseOutcome.error, p⟩ ev = none →
      (get_secret ⟨e, true, ParseOutcome.error, p⟩ none key cv ev req).warned
        = true) := by
  have henv : envOverride ⟨e, false, q, p⟩ ev
      = envOverride ⟨e, true, ParseOutcome.error, p⟩ ev := rfl
  cases hE : envOverride ⟨e, true, ParseOutcome.error, p⟩ ev with
  | some v =>
    constructor
    · rw [get_secret_env_hit _ none key cv ev req v hE,
        get_secret_env_hit _ none key cv ev req v (henv.trans hE)]
    · intro h
      simp at h
  | none =>
    rw [get_secret_env_miss _ none key cv ev req hE,
      get_secret_env_miss _ none key cv ev req (henv.trans hE)]
    have h1 : load_secrets_file ⟨e, true, ParseOutcome.error, p⟩ none
        = ⟨none, none, 1, true⟩ := rfl
    have h2 : load_secrets_file ⟨e, false, q, p⟩ none
        = ⟨none, none, 0, false⟩ := rfl
    constructor
    · simp only [getSecretNoEnv, h1, h2, secretsLookup]
      cases htr : truthy cv <;> cases hreq : req <;> simp [htr, hreq]
    · intro _
      simp only [getSecretNoEnv, h1, secretsLookup]
      cases htr : truthy cv <;> cases hreq : req <;> simp [htr, hreq]

/-- Claim C7, amended, witness: with no environment override, the call
against the unparseable file returns the config value just as it does with
the file absent, and the warning is printed. -/
theorem malformed_file_behaves_as_absent_witness :
    (get_secret wParseError none "esxi_root_password" (some "configpass")
      none true).ret =
      (get_secret wAbsent none "esxi_root_password" (some "configpass")
        none true).ret ∧
    (get_secret wParseError none "esxi_root_password" (some "configpass")
      none true).warned = true :=
  ⟨(malformed_file_behaves_as_absent envEmpty (fun _ => "")
      (ParseOutcome.ok none) "esxi_root_password" (some "configpass")
      none true).1,
   (malformed_file_behaves_as_absent envEmpty (fun _ => "")
      (ParseOutcome.ok none) "esxi_root_password" (some "configpass")
      none true).2 (by decide)⟩

/-- Claim C8: for a missing or unparseable main config file,
`load_config_with_secrets` exits with status 1 after printing an
`ERROR:`-marked message, and never constructs a `SecretsManager`. -/
theorem missing_or_malformed_config_is_fatal (cfgExists : Bool)
    (cfgParse : Option ConfigDoc) (w : World)
    (h : cfgExists = false ∨ cfgParse = none) :
    (load_config_with_secrets cfgExists cfgParse w).outcome
      = LoadConfigOutcome.exit 1 ∧
    (load_config_with_secrets cfgExists cfgParse w).errorPrinted = true ∧
    (load_config_with_secrets cfgExists cfgParse w).constructedManager
      = false := by
  rcases h with rfl | rfl
  · exact ⟨rfl, rfl, rfl⟩
  · cases cfgExists
    · exact ⟨rfl, rfl, rfl⟩
    · exact ⟨rfl, rfl, rfl⟩

/-- Claim C8, witness: a missing config file is fatal before any secret
resolution. -/
theorem missing_or_malformed_config_is_fatal_witness :
    (load_config_with_secrets false (some ⟨none, none, none⟩) wGood).outcome
      = LoadConfigOutcome.exit 1 ∧
    (load_config_with_secrets false (some ⟨none, none, none⟩)
      wGood).errorPrinted = true ∧
    (load_config_with_secrets false (some ⟨none, none, none⟩)
      wGood).constructedManager = false :=
  missing_or_malformed_config_is_fatal false (some ⟨none, none, none⟩) wGood
    (Or.inl rfl)

/-- Claim C9: `get_secrets_info` output depends only on the presence
pattern — whether the secrets file exists and which of the four enumerated
environment variables are set to truthy values — so two states that differ
only in the secret values themselves produce identical reports. -/
theorem get_secrets_info_noninterference (w1 w2 : World) (project_dir : String)
    (hf : w1.fileExists = w2.fileExists)
    (he : ∀ var ∈ envVarsList, envTruthy w1 var = envTruthy w2 var) :
    get_secrets_info w1 project_dir = get_secrets_info w2 project_dir := by
  have h1 := he "VCF_ESXI_ROOT_PASSWORD" (by simp [envVarsList])
  have h2 := he "VCF_INSTALLER_ROOT_PASSWORD" (by simp [envVarsList])
  have h3 := he "VCF_INSTALLER_ADMIN_PASSWORD" (by simp [envVarsList])
  have h4 := he "VCF_VCENTER_PASSWORD" (by simp [envVarsList])
  simp only [get_secrets_info, has_secrets_file, hf, envVarsList, List.map,
    envLine, h1, h2, h3, h4]

/-- Claim C9, witness: two states whose only difference is the secret value
stored in `VCF_ESXI_ROOT_PASSWORD` yield the same report. -/
theorem get_secrets_info_noninterference_witness :
    get_secrets_info wEnvSet "/home/lab/vcf"
      = get_secrets_info wEnvSetOther "/home/lab/vcf" :=
  get_secrets_info_noninterference wEnvSet wEnvSetOther "/home/lab/vcf" rfl
    (by decide)

/-- Claim C10: when no non-empty environment override applies and the
secrets file parsed to a non-empty mapping containing the key, the mapped
value is returned verbatim — membership, not truthiness, decides — and the
prompt never runs, for every `config_value` and `required` flag; the
witness instantiates this with a YAML-null value beating a non-empty
config value under `required=True`. -/
theorem secrets_membership_decides_verbatim_return (w : World) (c : Cache)
    (key : String) (cv ev : Option String) (req : Bool) (m : SecretsMap)
    (v : SecretVal)
    (hc : c = none ∨ c = some m)
    (hfe : w.fileExists = true) (hp : w.parse = ParseOutcome.ok (some m))
    (hk : m.lookup key = some v)
    (henv : envOverride w ev = none) :
    (get_secret w c key cv ev req).ret = v ∧
    (get_secret w c key cv ev req).prompted = false := by
  have hm : m.isEmpty = false := by
    cases m with
    | nil => simp at hk
    | cons a l => rfl
  have hload : (load_secrets_file w c).result = some m := by
    rcases hc with rfl | rfl
    · simp [load_secrets_file, hfe, hp]
    · rfl
  rw [get_secret_env_miss w c key cv ev req henv]
  simp [getSecretNoEnv, secretsLookup, hload, hm, hk]

/-- Claim C10, witness: `{esxi_root_password: null}` makes `get_secret`
return `None` verbatim, bypassing the non-empty config value and the
prompt even though `required=True`. -/
theorem secrets_membership_decides_verbatim_return_witness :
    (get_secret wNullSecret none "esxi_root_password" (some "configpass")
      none true).ret = none ∧
    (get_secret wNullSecret none "esxi_root_password" (some "configpass")
      none true).prompted = false :=
  secrets_membership_decides_verbatim_return wNullSecret none
    "esxi_root_password" (some "configpass") none true
    [("esxi_root_password", none)] none
    (Or.inl rfl) rfl rfl (by decide) rfl

end VcfSecrets
